import Mathlib

/-!
Verification development for the literature-flowchart repository.

The repository's response-extraction / render-retry / batch pipeline is
embedded shallowly: Python strings become `List Char` (Python indexes and
slices strings by code point, exactly like a character list), `str.find`
becomes `strFind`/`strFindFrom` returning `Option Nat` instead of `-1`,
`str.strip` becomes `pyStrip`, and every fallible effect (file reads,
network calls, file writes, the external renderer) is an explicit boolean
or `Option` oracle supplied to the embedded function.  The two front-end
variants are embedded separately: definitions prefixed `run_` come from
`streamlit_run.py`, definitions prefixed `v2_` (and `extract2`,
`process_file`) come from `streamlit_2.0.py`.
-/

/-- Characters of a string literal; Python string values are embedded as
`List Char` so that indexing and slicing match Python's per-code-point
semantics. -/
def cl (s : String) : List Char := s.data

/-- Python's ASCII whitespace set used by `str.strip()` (space, tab,
newline, carriage return, vertical tab, form feed); the full Unicode
whitespace classes are not exercised by this repository's data. -/
def isPyWS (c : Char) : Bool :=
  c = ' ' || c = '\t' || c = '\n' || c = '\r' || c = '\x0b' || c = '\x0c'

/-- Python `s.strip()`: remove leading and trailing whitespace. -/
def pyStrip (s : List Char) : List Char :=
  ((s.dropWhile isPyWS).reverse.dropWhile isPyWS).reverse

/-- Helper for `strFind`: first index at or after `i` where `needle`
occurs, scanning `hay` left to right. -/
def strFindAux (needle : List Char) : List Char → Nat → Option Nat
  | [], i => if needle.isPrefixOf ([] : List Char) then some i else none
  | c :: rest, i =>
    if needle.isPrefixOf (c :: rest) then some i else strFindAux needle rest (i + 1)

/-- Python `hay.find(needle)` (result `-1` becomes `none`). -/
def strFind (hay needle : List Char) : Option Nat :=
  strFindAux needle hay 0

/-- Python `hay.find(needle, start)` (result `-1` becomes `none`). -/
def strFindFrom (hay needle : List Char) (start : Nat) : Option Nat :=
  (strFindAux needle (hay.drop start) 0).map (· + start)

/-- Python slice `s[a:b]` for non-negative bounds. -/
def sliceCL (s : List Char) (a b : Nat) : List Char :=
  (s.take b).drop a

/-- The opening fence marker used by both extractors. -/
def startTagCL : List Char := cl "```mermaid"

/-- The closing fence marker. -/
def endTagCL : List Char := cl "```"

/-- The fixed summary separator (8 characters). -/
def sepCL : List Char := cl "---摘要---"

/-- Diagram-start token searched by the fallback heuristic. -/
def graphTDCL : List Char := cl "graph TD"

/-- Second diagram-start token of the fallback heuristic. -/
def graphLRCL : List Char := cl "graph LR"

/-- Return value of `get_mermaid_code_from_text` in streamlit_run.py:
the dict `\x7b"mermaid_code": ..., "abstract": ...\x7d`, with Python
`None` embedded as `none`. -/
structure ExtractResult where
  mermaid_code : Option (List Char)
  abstract : Option (List Char)
deriving Repr, DecidableEq

/-- streamlit_run.py lines 149-168 plus the final lines 215-225: the
branch taken when both fence markers were located (`start_index != -1 and
end_index != -1`), given the stripped message `m`, the flag
`translate_abstract`, and the two found indices `s` (of the opening
marker) and `e` (of the closing marker). -/
def finishRun (m : List Char) (ta : Bool) (s e : Nat) : ExtractResult :=
  let mc := pyStrip (sliceCL m (s + startTagCL.length) e)
  let ab : Option (List Char) :=
    if ta then
      match strFindFrom m sepCL e with
      | some i => some (pyStrip (m.drop (i + sepCL.length)))
      | none =>
        let remaining := pyStrip (m.drop (e + endTagCL.length))
        if remaining.isEmpty then none else some remaining
    else none
  if mc.isEmpty then ⟨none, none⟩ else ⟨some mc, ab⟩

/-- streamlit_run.py lines 173-186: the line-collecting loop of the
fallback branch. State `inBlock` is Python's `in_code_block`; the loop
breaks at a line starting with the separator when a summary was
requested. -/
def collectLines (ta : Bool) : List (List Char) → Bool → List (List Char)
  | [], _ => []
  | line :: rest, inBlock =>
    let sl := pyStrip line
    let inBlock2 :=
      inBlock || graphTDCL.isPrefixOf sl || graphLRCL.isPrefixOf sl
    if inBlock2 && !sl.isEmpty && !endTagCL.isPrefixOf sl then
      if ta && sepCL.isPrefixOf sl then []
      else line :: collectLines ta rest inBlock2
    else collectLines ta rest inBlock2

/-- streamlit_run.py lines 171-213 plus the final lines 215-225: the
`elif` chain taken when no complete fenced block was found, given the
stripped message `m`. -/
def fallbackRun (m : List Char) (ta : Bool) : ExtractResult :=
  if (strFind m graphTDCL).isSome || (strFind m graphLRCL).isSome then
    let mls := collectLines ta (m.splitOn '\n') false
    let mc : Option (List Char) :=
      if mls.isEmpty then none else some (pyStrip (List.intercalate (cl "\n") mls))
    let ab : Option (List Char) :=
      if ta then
        match strFind m sepCL with
        | some i => some (pyStrip (m.drop (i + sepCL.length)))
        | none => none
      else none
    match mc with
    | some l => if l.isEmpty then ⟨none, none⟩ else ⟨some l, ab⟩
    | none => ⟨none, none⟩
  else if !m.isEmpty then
    ⟨none, none⟩
  else
    ⟨none, none⟩

/-- The response-parsing part of `get_mermaid_code_from_text`
(streamlit_run.py lines 136-233): strip the raw completion text, locate
the first `startTagCL` and the first `endTagCL` after it, and dispatch to
the fenced-block branch or the fallback chain.  In the third `elif`
branch (non-empty text, no diagram) and in the final check (lines
215-225) the function returns `\x7bNone, None\x7d` whenever no mermaid
code was obtained, discarding any abstract that was found. -/
def extractRun (raw : List Char) (ta : Bool) : ExtractResult :=
  let m := pyStrip raw
  match strFind m startTagCL with
  | some s =>
    match strFindFrom m endTagCL (s + startTagCL.length) with
    | some e => finishRun m ta s e
    | none => fallbackRun m ta
  | none => fallbackRun m ta

/-- Full `get_mermaid_code_from_text` of streamlit_run.py with its
effects as oracles: `key = false` is the missing-credential early return
(lines 61-63); `reply = none` collapses the transport, JSON and
malformed-response failure returns (lines 226-246); a successful call
parses the reply content. -/
def run_get_mermaid_code_from_text (key : Bool) (reply : Option (List Char))
    (ta : Bool) : ExtractResult :=
  if !key then ⟨none, none⟩
  else
    match reply with
    | none => ⟨none, none⟩
    | some content => extractRun content ta

/-- Return value of `get_mermaid_code_from_text` in streamlit_2.0.py:
`mermaid_code`, `abstract` and the `success` flag
(`mermaid_code is not None`). -/
structure Extract2Result where
  mermaid_code : Option (List Char)
  abstract : Option (List Char)
  success : Bool
deriving Repr, DecidableEq

/-- streamlit_2.0.py lines 132-153: the content is not stripped first;
`end_idx` is searched from `start_idx + 10`; the summary separator is
searched from index 0 and the summary is `content[sep_idx+6:].strip()` —
the literal offset 6 from line 147, although the separator has 8
characters. -/
def extract2 (content : List Char) (ta : Bool) : Extract2Result :=
  let mc : Option (List Char) :=
    match strFind content startTagCL with
    | some s =>
      match strFindFrom content endTagCL (s + 10) with
      | some e => some (pyStrip (sliceCL content (s + 10) e))
      | none => none
    | none => none
  let ab : Option (List Char) :=
    if ta then (strFind content sepCL).map (fun i => pyStrip (content.drop (i + 6)))
    else none
  ⟨mc, ab, mc.isSome⟩

/-- Full `get_mermaid_code_from_text` of streamlit_2.0.py (lines 80-161):
missing key and any request exception return `success = false` without
any mermaid code or abstract. -/
def v2_get_mermaid_code_from_text (key : Bool) (reply : Option (List Char))
    (ta : Bool) : Extract2Result :=
  if !key then ⟨none, none, false⟩
  else
    match reply with
    | none => ⟨none, none, false⟩
    | some content => extract2 content ta

/-- Outcome oracle for one iteration of the render loop in
`render_mermaid_to_image` (streamlit_run.py lines 267-360): the mmdc
executable may be missing (lines 278-283), the attempt may raise
(`FileNotFoundError` at 349 or the generic handler at 355), or the
subprocess runs and its success criterion (return code zero, output file
present and non-empty, line 304) either holds or fails. -/
inductive AttemptEvent where
  | mmdcMissing
  | raised
  | rendered (ok : Bool)
deriving Repr, DecidableEq

/-- Observable trace of one call to `render_mermaid_to_image`: final
result, number of loop iterations entered (`attempts`), renderer
subprocess invocations (`renders`), regeneration API calls (`regens`),
and temporary source files created / removed. -/
structure RenderTrace where
  success : Bool
  attempts : Nat
  renders : Nat
  regens : Nat
  created : Nat
  removed : Nat
deriving Repr, DecidableEq

/-- The `while retry_count < max_retries` loop of
`render_mermaid_to_image` (streamlit_run.py lines 267-360), with
`fuel = max_retries - retry_count` as the structural measure and `k` the
current `retry_count`.  Each entered iteration writes one temporary
source file (line 272).  On every exit path of an iteration the
temporary file is removed (lines 281-282, 300-301, 352-353, 358-359)
before the iteration concludes.  On render failure, if an original text
is available and `retry_count < max_retries - 1` (line 322), the code is
regenerated (line 331); a failed regeneration returns `false`
(line 337), otherwise the loop continues with the new code. -/
def renderGo (ev : Nat → List Char → AttemptEvent)
    (regen : Nat → List Char → Option (List Char)) (hasOrig : Bool)
    (maxRetries : Nat) : Nat → Nat → List Char → RenderTrace
  | 0, _, _ => ⟨false, 0, 0, 0, 0, 0⟩
  | fuel + 1, k, code =>
    match ev k code with
    | .mmdcMissing => ⟨false, 1, 0, 0, 1, 1⟩
    | .raised => ⟨false, 1, 1, 0, 1, 1⟩
    | .rendered ok =>
      if ok then ⟨true, 1, 1, 0, 1, 1⟩
      else if hasOrig && decide (k < maxRetries - 1) then
        match regen k code with
        | none => ⟨false, 1, 1, 1, 1, 1⟩
        | some newCode =>
          let t := renderGo ev regen hasOrig maxRetries fuel (k + 1) newCode
          ⟨t.success, t.attempts + 1, t.renders + 1, t.regens + 1,
           t.created + 1, t.removed + 1⟩
      else ⟨false, 1, 1, 0, 1, 1⟩

/-- `render_mermaid_to_image` (streamlit_run.py lines 249-364): run the
retry loop from `retry_count = 0` on the initially extracted code.
`hasOrig` is the truthiness of the `original_text` argument; `ev` and
`regen` are the renderer-outcome and regeneration oracles. -/
def render_mermaid_to_image (ev : Nat → List Char → AttemptEvent)
    (regen : Nat → List Char → Option (List Char)) (code : List Char)
    (hasOrig : Bool) (maxRetries : Nat) : RenderTrace :=
  renderGo ev regen hasOrig maxRetries maxRetries 0 code

/-- Truthiness of a Python string-or-None value: `None` and the empty
string are falsy. -/
def abstractTruthy (o : Option (List Char)) : Bool :=
  match o with
  | some a => !a.isEmpty
  | none => false

/-- Per-item environment for the sequential batch loop of
streamlit_run.py: the uploaded file's name and stem, whether reading and
decoding succeeded (lines 407-454 collapse txt decoding, PDF reading and
unsupported types into their failure dictionaries), the decoded content,
the completion reply oracle, and the write / render outcome oracles. -/
structure ItemEnvRun where
  name : List Char
  stem : List Char
  readOk : Bool
  content : List Char
  apiReply : Option (List Char)
  mmdWriteOk : Bool
  summaryWriteOk : Bool
  renderOk : Bool
deriving Repr, DecidableEq

/-- One entry of `all_results` in streamlit_run.py (lines 509-519 and the
failure dictionaries): filename, overall success flag and the recorded
artifact paths (the error strings are not modelled). -/
structure ItemResultRun where
  filename : List Char
  success : Bool
  mmdPath : Option (List Char)
  pngPath : Option (List Char)
  summaryPath : Option (List Char)
deriving Repr, DecidableEq

/-- A failure dictionary appended by one of the early `continue` paths or
the no-code path of the loop body. -/
def failRes (n : List Char) : ItemResultRun :=
  ⟨n, false, none, none, none⟩

/-- Result of processing one item together with whether the credential
check inside `get_mermaid_code_from_text` was reached and whether a
network request was issued. -/
structure ItemStep where
  result : ItemResultRun
  credChecked : Bool
  apiCalled : Bool
deriving Repr, DecidableEq

/-- One iteration of the batch loop of streamlit_run.py (lines 402-535):
read failure or empty content appends a failure dictionary and
continues; otherwise `get_mermaid_code_from_text` is called (reaching
the credential check at line 61; a network request is issued exactly
when the key is present).  With mermaid code extracted, lines 467-519
compute `mmd_success`, `summary_success` (`true` when no summary was
requested, otherwise requires a truthy abstract and a successful write)
and `render_success`, and overall success is their conjunction; artifact
paths are recorded per successful sub-step. -/
def processItemRun (key : Bool) (ta : Bool) (e : ItemEnvRun) : ItemStep :=
  if !e.readOk then ⟨failRes e.name, false, false⟩
  else if (pyStrip e.content).isEmpty then ⟨failRes e.name, false, false⟩
  else
    let extr := run_get_mermaid_code_from_text key e.apiReply ta
    match extr.mermaid_code with
    | none => ⟨failRes e.name, true, key⟩
    | some _ =>
      let mmdOk := e.mmdWriteOk
      let abOk := abstractTruthy extr.abstract
      let sumOk := if ta then abOk && e.summaryWriteOk else true
      let renOk := e.renderOk
      ⟨⟨e.name, mmdOk && renOk && sumOk,
        if mmdOk then some (e.stem ++ cl ".mmd") else none,
        if renOk then some (e.stem ++ cl ".png") else none,
        if ta && abOk && e.summaryWriteOk then some (e.stem ++ cl ".summary.txt")
        else none⟩,
       true, key⟩

/-- The sequential batch loop: one result is appended to `all_results`
per uploaded file, in upload order. -/
def batchRun (key : Bool) (ta : Bool) (envs : List ItemEnvRun) :
    List ItemResultRun :=
  envs.map (fun e => (processItemRun key ta e).result)

/-- Number of times the credential check at streamlit_run.py line 61 is
evaluated during a batch. -/
def credChecksRun (key : Bool) (ta : Bool) (envs : List ItemEnvRun) : Nat :=
  (envs.map (fun e => if (processItemRun key ta e).credChecked then 1 else 0)).sum

/-- Number of network requests issued during a batch. -/
def apiCallsRun (key : Bool) (ta : Bool) (envs : List ItemEnvRun) : Nat :=
  (envs.map (fun e => if (processItemRun key ta e).apiCalled then 1 else 0)).sum

/-- Archive entry names contributed by one successful item (the
`arcname=Path(...).name` values of streamlit_run.py lines 566-588); a
path is added exactly when it was recorded, mirroring the
`result.get(...) and Path(...).exists()` guards, since a recorded path
was written by this batch. -/
def entriesOf (r : ItemResultRun) : List (List Char) :=
  r.mmdPath.toList ++ r.pngPath.toList ++ r.summaryPath.toList

/-- The `files_to_zip` counting loop (streamlit_run.py lines 550-556). -/
def filesToZip (rs : List ItemResultRun) : Nat :=
  (rs.map (fun r => (entriesOf r).length)).sum

/-- The zip-packaging step (streamlit_run.py lines 540-596): with no
successful item no buffer is created; with successful items but zero
existing files the buffer is reset to `None`; otherwise the archive
holds the artifacts of the successful items in order. -/
def makeZipRun (rs : List ItemResultRun) : Option (List (List Char)) :=
  let succ := rs.filter (fun r => r.success)
  if succ.isEmpty then none
  else if filesToZip succ == 0 then none
  else some (succ.flatMap entriesOf)

/-- Per-item environment for `process_file` in streamlit_2.0.py: file
name and stem, read/decode success, decoded content, whether the API key
is present, the completion reply oracle, and whether the output writes
succeed (an exception raised by either write is caught by the outer
handler at line 223 and fails the item). -/
structure ItemEnv2 where
  name : List Char
  stem : List Char
  readOk : Bool
  content : List Char
  keyPresent : Bool
  apiReply : Option (List Char)
  writesOk : Bool
deriving Repr, DecidableEq

/-- Result dictionary of `process_file` in streamlit_2.0.py (lines
176-228): filename, success flag, saved files, and the extracted code
and abstract carried on success. -/
structure ItemResult2 where
  filename : List Char
  success : Bool
  files : List (List Char)
  mermaid_code : Option (List Char)
  abstract : Option (List Char)
deriving Repr, DecidableEq

/-- A failure dictionary returned by `process_file`. -/
def fail2 (n : List Char) : ItemResult2 :=
  ⟨n, false, [], none, none⟩

/-- `process_file` of streamlit_2.0.py (lines 163-228): unsupported type
or a read exception fails the item; empty content fails the item; then
`get_mermaid_code_from_text` runs and `result["success"]` alone decides
whether the item proceeds; the mermaid file is always written, the
summary file only when a summary was requested and the abstract is
truthy, and the item is reported successful regardless of whether a
requested summary was actually extracted. -/
def process_file (ta : Bool) (e : ItemEnv2) : ItemResult2 :=
  if !e.readOk then fail2 e.name
  else if (pyStrip e.content).isEmpty then fail2 e.name
  else
    let r := v2_get_mermaid_code_from_text e.keyPresent e.apiReply ta
    if !r.success then fail2 e.name
    else if !e.writesOk then fail2 e.name
    else
      ⟨e.name, true,
       [e.stem ++ cl ".mmd"]
         ++ (if ta && abstractTruthy r.abstract then [e.stem ++ cl ".summary.txt"]
             else []),
       r.mermaid_code, r.abstract⟩

/-- Concurrent completion model for `asyncio.gather` in
`process_all_files` (streamlit_2.0.py lines 261-267): tasks finish in an
arbitrary order, and each finishing task stores its result in the slot
of its own task index.  `v i` is the result of task `i`. -/
def scatter (v : Nat → Option ItemResult2) :
    List Nat → List (Option ItemResult2) → List (Option ItemResult2)
  | [], slots => slots
  | i :: rest, slots => scatter v rest (slots.set i (v i))

/-- `process_all_files` under the concurrent completion model: beginning
from empty slots, the per-task results land in task-index order
regardless of the completion order. -/
def gather2 (ta : Bool) (items : List ItemEnv2) (order : List Nat) :
    List (Option ItemResult2) :=
  scatter (fun i => items[i]?.map (process_file ta)) order
    (List.replicate items.length none)

example :
    gather2 true
      [⟨cl "a.txt", cl "a", true, cl "ta", true, some (cl "```mermaid\ngraph TD\nA-->B\n```"), true⟩,
       ⟨cl "b.txt", cl "b", false, cl "", true, none, true⟩]
      [1, 0]
      = [some (process_file true ⟨cl "a.txt", cl "a", true, cl "ta", true,
            some (cl "```mermaid\ngraph TD\nA-->B\n```"), true⟩),
         some (fail2 (cl "b.txt"))] := by decide

example :
    extractRun (cl "blah ```mermaid\ngraph TD\nA-->B\n``` blah") false
      = ⟨some (cl "graph TD\nA-->B"), none⟩ := by decide

example :
    extractRun (cl "```mermaid\ngraph TD\nA-->B\n```\n---摘要---\nSummary text") true
      = ⟨some (cl "graph TD\nA-->B"), some (cl "Summary text")⟩ := by decide

example : extractRun (cl "```mermaid```") true = ⟨none, none⟩ := by decide

example : extractRun (cl "no diagram here\n---摘要---\nSummary only") true
    = ⟨none, none⟩ := by decide

example :
    render_mermaid_to_image (fun _ _ => .rendered false)
      (fun _ _ => some (cl "graph TD\nA-->B")) (cl "bad") true 2
      = ⟨false, 2, 2, 1, 2, 2⟩ := by decide

example :
    render_mermaid_to_image (fun _ _ => .rendered true) (fun _ _ => none)
      (cl "graph TD") true 2 = ⟨true, 1, 1, 0, 1, 1⟩ := by decide

example :
    makeZipRun [⟨cl "e.txt", true, some (cl "e.mmd"), some (cl "e.png"), none⟩,
                failRes (cl "f.txt")]
      = some [cl "e.mmd", cl "e.png"] := by decide

example : makeZipRun [failRes (cl "e.txt"), failRes (cl "f.txt")] = none := by decide

/-- Dispatch helper: when the opening marker is found at `s` and the
closing marker at `e`, `extractRun` takes the fenced-block branch. -/
theorem extractRun_eq_finishRun (raw : List Char) (ta : Bool) (s e : Nat)
    (h1 : strFind (pyStrip raw) startTagCL = some s)
    (h2 : strFindFrom (pyStrip raw) endTagCL (s + startTagCL.length) = some e) :
    extractRun raw ta = finishRun (pyStrip raw) ta s e := by
  unfold extractRun
  simp only [h1, h2]

/-- In the fenced-block branch a non-empty trimmed interior is returned
as the mermaid code. -/
theorem finishRun_code (m : List Char) (ta : Bool) (s e : Nat)
    (h : (pyStrip (sliceCL m (s + startTagCL.length) e)).isEmpty = false) :
    (finishRun m ta s e).mermaid_code
      = some (pyStrip (sliceCL m (s + startTagCL.length) e)) := by
  unfold finishRun
  simp only [h, Bool.false_eq_true, if_false]

/-- In the fenced-block branch an empty trimmed interior yields the
failure dictionary. -/
theorem finishRun_empty (m : List Char) (ta : Bool) (s e : Nat)
    (h : (pyStrip (sliceCL m (s + startTagCL.length) e)).isEmpty = true) :
    finishRun m ta s e = ⟨none, none⟩ := by
  unfold finishRun
  simp only [h, if_true]

/-- C1 (counterexample): the input consisting exactly of the two fence
markers around a whitespace-only interior is non-empty and contains a
well-formed fenced mermaid block, yet the extractor does not return the
trimmed interior (the empty string) as the diagram source — it returns
`none`. -/
theorem C1_counterexample :
    strFind (pyStrip (cl "```mermaid\n```")) startTagCL = some 0 ∧
    strFindFrom (pyStrip (cl "```mermaid\n```")) endTagCL (0 + startTagCL.length)
      = some 11 ∧
    (extractRun (cl "```mermaid\n```") false).mermaid_code
      ≠ some (pyStrip (sliceCL (pyStrip (cl "```mermaid\n```"))
          (0 + startTagCL.length) 11)) := by decide

/-- C1 (amended): for every raw completion text containing a well-formed
fenced mermaid block — the first occurrence of the opening marker at `s`
and the next closing marker at `e` — whose interior trims to a non-empty
string, extraction returns exactly the trimmed substring strictly
between the two markers, regardless of surrounding prose and of whether
a summary was requested. -/
theorem C1_block_extraction_amended (raw : List Char) (ta : Bool) (s e : Nat)
    (h1 : strFind (pyStrip raw) startTagCL = some s)
    (h2 : strFindFrom (pyStrip raw) endTagCL (s + startTagCL.length) = some e)
    (h3 : (pyStrip (sliceCL (pyStrip raw) (s + startTagCL.length) e)).isEmpty
      = false) :
    (extractRun raw ta).mermaid_code
      = some (pyStrip (sliceCL (pyStrip raw) (s + startTagCL.length) e)) := by
  rw [extractRun_eq_finishRun raw ta s e h1 h2]
  exact finishRun_code (pyStrip raw) ta s e h3

/-- C1 (witness): on a concrete text with prose on both sides the
extractor returns the trimmed interior of the fenced block. -/
theorem C1_block_extraction_witness :
    (extractRun (cl "x ```mermaid\ngraph TD\n``` y") false).mermaid_code
      = some (cl "graph TD") :=
  (C1_block_extraction_amended (cl "x ```mermaid\ngraph TD\n``` y") false 2 22
    (by decide) (by decide) (by decide)).trans (by decide)

/-- C10: a well-formed fenced block whose interior is empty or
whitespace-only is treated as no diagram: the extractor reports overall
failure with `mermaid_code = none` (and no abstract either), even though
both fence markers are present. -/
theorem C10_empty_interior_fails (raw : List Char) (ta : Bool) (s e : Nat)
    (h1 : strFind (pyStrip raw) startTagCL = some s)
    (h2 : strFindFrom (pyStrip raw) endTagCL (s + startTagCL.length) = some e)
    (h3 : (pyStrip (sliceCL (pyStrip raw) (s + startTagCL.length) e)).isEmpty
      = true) :
    extractRun raw ta = ⟨none, none⟩ := by
  rw [extractRun_eq_finishRun raw ta s e h1 h2]
  exact finishRun_empty (pyStrip raw) ta s e h3

/-- C10 (witness): the literal input made only of the two markers fails
extraction. -/
theorem C10_empty_interior_fails_witness :
    extractRun (cl "```mermaid```") true = ⟨none, none⟩ :=
  C10_empty_interior_fails (cl "```mermaid```") true 0 10
    (by decide) (by decide) (by decide)

/-- C2: on the specification's Scenario B input, streamlit_run.py (which
skips `len(separator)` characters, searching from the end of the diagram
block) returns the summary with no separator characters left, while
streamlit_2.0.py (line 147, `content[sep_idx+6:]` for the 8-character
separator) leaves the last two separator characters at the start of the
summary. -/
theorem C2_summary_offset_bug :
    extractRun (cl "```mermaid\ngraph TD\nA-->B\n```\n---摘要---\nSummary text")
        true
      = ⟨some (cl "graph TD\nA-->B"), some (cl "Summary text")⟩ ∧
    (extract2 (cl "```mermaid\ngraph TD\nA-->B\n```\n---摘要---\nSummary text")
        true).abstract
      = some (cl "--\nSummary text") := by decide

/-- C3 (counterexample): in streamlit_run.py a present separator does
not yield a summary when no diagram source could be extracted — the
function returns the failure dictionary with both fields `none`. -/
theorem C3_counterexample :
    (strFind (pyStrip (cl "no diagram here\n---摘要---\nSummary only")) sepCL).isSome
      = true ∧
    extractRun (cl "no diagram here\n---摘要---\nSummary only") true
      = ⟨none, none⟩ := by decide

/-- C3 (amended): in streamlit_2.0.py summary extraction is independent
of diagram extraction — a present separator always yields the substring
after `sep_idx + 6`, trimmed, whatever the diagram result; and in
streamlit_run.py the absence of the separator alone never fails the
extraction: a found fenced block with non-empty trimmed interior is
still returned as the diagram source. -/
theorem C3_summary_independence_amended :
    (∀ (content : List Char) (i : Nat), strFind content sepCL = some i →
      (extract2 content true).abstract = some (pyStrip (content.drop (i + 6)))) ∧
    (∀ (raw : List Char) (s e : Nat),
      strFind (pyStrip raw) startTagCL = some s →
      strFindFrom (pyStrip raw) endTagCL (s + startTagCL.length) = some e →
      strFindFrom (pyStrip raw) sepCL e = none →
      (pyStrip (sliceCL (pyStrip raw) (s + startTagCL.length) e)).isEmpty = false →
      ((extractRun raw true).mermaid_code).isSome = true) := by
  constructor
  · intro content i h
    unfold extract2
    simp only [h, if_true]
    rfl
  · intro raw s e h1 h2 _h3 h4
    rw [extractRun_eq_finishRun raw true s e h1 h2]
    rw [finishRun_code (pyStrip raw) true s e h4]
    rfl

/-- C3 (witness): the amended claim at concrete inputs — a separator
with no diagram still yields an abstract in streamlit_2.0.py, and a
fenced block with no separator still yields a diagram in
streamlit_run.py. -/
theorem C3_summary_independence_witness :
    (extract2 (cl "nothing\n---摘要---\nSummary here") true).abstract
      = some (cl "--\nSummary here") ∧
    ((extractRun (cl "pre ```mermaid\ngraph LR\nX-->Y\n``` post") true).mermaid_code).isSome
      = true :=
  ⟨(C3_summary_independence_amended.1 (cl "nothing\n---摘要---\nSummary here") 8
      (by decide)).trans (by decide),
   C3_summary_independence_amended.2 (cl "pre ```mermaid\ngraph LR\nX-->Y\n``` post")
     4 30 (by decide) (by decide) (by decide) (by decide)⟩

/-- Invariants of the render loop trace, by induction on the remaining
fuel: at most `fuel` further iterations run; each iteration performs at
most one renderer invocation and at most one regeneration call; and
every iteration creates exactly one temporary source file and removes
exactly one. -/
theorem renderGo_trace (ev : Nat → List Char → AttemptEvent)
    (regen : Nat → List Char → Option (List Char)) (hasOrig : Bool)
    (maxRetries : Nat) :
    ∀ (fuel k : Nat) (code : List Char),
      (renderGo ev regen hasOrig maxRetries fuel k code).attempts ≤ fuel ∧
      (renderGo ev regen hasOrig maxRetries fuel k code).renders
        ≤ (renderGo ev regen hasOrig maxRetries fuel k code).attempts ∧
      (renderGo ev regen hasOrig maxRetries fuel k code).regens
        ≤ (renderGo ev regen hasOrig maxRetries fuel k code).attempts ∧
      (renderGo ev regen hasOrig maxRetries fuel k code).created
        = (renderGo ev regen hasOrig maxRetries fuel k code).attempts ∧
      (renderGo ev regen hasOrig maxRetries fuel k code).removed
        = (renderGo ev regen hasOrig maxRetries fuel k code).attempts := by
  intro fuel
  induction fuel with
  | zero =>
    intro k code
    simp [renderGo]
  | succ n ih =>
    intro k code
    unfold renderGo
    cases ev k code with
    | mmdcMissing => simp
    | raised => simp
    | rendered ok =>
      cases ok with
      | true => simp
      | false =>
        simp only [Bool.false_eq_true, if_false]
        split
        · cases hre : regen k code with
          | none => simp
          | some c =>
            have h := ih (k + 1) c
            dsimp only
            omega
        · simp

/-- C5: for every diagram source, renderer-outcome oracle, regeneration
oracle and retry cap, the render-retry controller performs at most
`maxRetries` loop iterations (the default cap is 2 total attempts), each
comprising at most one renderer invocation and at most one regeneration
call in total; it cannot loop unboundedly. -/
theorem C5_retry_bounded (ev : Nat → List Char → AttemptEvent)
    (regen : Nat → List Char → Option (List Char)) (code : List Char)
    (hasOrig : Bool) (maxRetries : Nat) :
    (render_mermaid_to_image ev regen code hasOrig maxRetries).attempts
      ≤ maxRetries ∧
    (render_mermaid_to_image ev regen code hasOrig maxRetries).renders
      ≤ (render_mermaid_to_image ev regen code hasOrig maxRetries).attempts ∧
    (render_mermaid_to_image ev regen code hasOrig maxRetries).regens
      ≤ (render_mermaid_to_image ev regen code hasOrig maxRetries).attempts := by
  have h := renderGo_trace ev regen hasOrig maxRetries maxRetries 0 code
  exact ⟨h.1, h.2.1, h.2.2.1⟩

/-- C9: on every exit path of the render-retry controller — success,
render failure, retry exhaustion, missing renderer executable, or an
exception during an attempt — each attempt's temporary source file is
removed before the attempt concludes: over the whole call the number of
temporary files created equals the number removed (both equal the
number of attempts), so no temporary file persists across or after
retries. -/
theorem C9_temp_file_cleanup (ev : Nat → List Char → AttemptEvent)
    (regen : Nat → List Char → Option (List Char)) (code : List Char)
    (hasOrig : Bool) (maxRetries : Nat) :
    (render_mermaid_to_image ev regen code hasOrig maxRetries).created
      = (render_mermaid_to_image ev regen code hasOrig maxRetries).removed ∧
    (render_mermaid_to_image ev regen code hasOrig maxRetries).created
      = (render_mermaid_to_image ev regen code hasOrig maxRetries).attempts := by
  have h := renderGo_trace ev regen hasOrig maxRetries maxRetries 0 code
  exact ⟨h.2.2.2.1.trans h.2.2.2.2.symm, h.2.2.2.1⟩

/-- C4 (counterexample): in streamlit_2.0.py an item whose requested
summary could not be extracted (the reply has no separator, so the
abstract is `none`) is still finalized as succeeded. -/
theorem C4_counterexample :
    (process_file true
      ⟨cl "a.txt", cl "a", true, cl "flow text", true,
       some (cl "```mermaid\ngraph TD\nA-->B\n```"), true⟩).success = true ∧
    (v2_get_mermaid_code_from_text true
      (some (cl "```mermaid\ngraph TD\nA-->B\n```")) true).abstract
      = none := by decide

/-- C4 (amended): in streamlit_run.py the invariant holds — an item is
finalized as succeeded only if mermaid code was extracted, the mermaid
file write succeeded, rendering succeeded (rendering is always requested
there), and, when a summary was requested, the abstract was truthy and
its write succeeded.  (In streamlit_2.0.py, where rendering is never
requested, success does not require a requested summary to have been
extracted; see the counterexample.) -/
theorem C4_success_invariant_amended (key ta : Bool) (e : ItemEnvRun)
    (h : ((processItemRun key ta e).result).success = true) :
    ((run_get_mermaid_code_from_text key e.apiReply ta).mermaid_code).isSome
      = true ∧
    e.mmdWriteOk = true ∧ e.renderOk = true ∧
    (ta = true →
      abstractTruthy (run_get_mermaid_code_from_text key e.apiReply ta).abstract
        = true ∧
      e.summaryWriteOk = true) := by
  unfold processItemRun at h
  dsimp only at h
  split at h
  · simp [failRes] at h
  · split at h
    · simp [failRes] at h
    · cases hmc : (run_get_mermaid_code_from_text key e.apiReply ta).mermaid_code with
      | none =>
        rw [hmc] at h
        simp [failRes] at h
      | some x =>
        rw [hmc] at h
        simp only [Bool.and_eq_true] at h
        refine ⟨rfl, h.1.1, h.1.2, ?_⟩
        intro hta
        subst hta
        have h2 := h.2
        simp [Bool.and_eq_true] at h2
        exact ⟨h2.1, h2.2⟩

/-- With a missing credential an item that reaches the completion call
fails (and items that fail earlier fail too), and no network request is
made for any item. -/
theorem processItemRun_no_key (ta : Bool) (e : ItemEnvRun) :
    ((processItemRun false ta e).result).success = false ∧
    (processItemRun false ta e).apiCalled = false := by
  unfold processItemRun
  dsimp only
  split
  · exact ⟨rfl, rfl⟩
  · split
    · exact ⟨rfl, rfl⟩
    · exact ⟨rfl, rfl⟩

/-- C6 (counterexample): with the credential missing and two readable
non-empty items, the credential check at the head of
`get_mermaid_code_from_text` is evaluated twice — once per item, not
once per batch — and the batch is not aborted: both items are processed
and reported failed. -/
theorem C6_counterexample :
    credChecksRun false true
      [⟨cl "a.txt", cl "a", true, cl "textA", some (cl "ra"), true, true, true⟩,
       ⟨cl "b.txt", cl "b", true, cl "textB", some (cl "rb"), true, true, true⟩]
      = 2 ∧
    (batchRun false true
      [⟨cl "a.txt", cl "a", true, cl "textA", some (cl "ra"), true, true, true⟩,
       ⟨cl "b.txt", cl "b", true, cl "textB", some (cl "rb"), true, true, true⟩]).map
        (fun r => r.success)
      = [false, false] := by decide

/-- C6 (amended): the credential is checked at the start of each item's
completion call, before that item's network request: a missing
credential causes every item to fail without any network call being
issued, and the batch still produces one result per input item — no
failure, the missing credential included, aborts the batch. -/
theorem C6_per_item_credential_amended (ta : Bool) (envs : List ItemEnvRun) :
    (∀ key : Bool, (batchRun key ta envs).length = envs.length) ∧
    apiCallsRun false ta envs = 0 ∧
    (∀ r ∈ batchRun false ta envs, r.success = false) := by
  refine ⟨fun key => by simp [batchRun], ?_, ?_⟩
  · unfold apiCallsRun
    apply List.sum_eq_zero
    intro x hx
    simp only [List.mem_map] at hx
    obtain ⟨e, -, he⟩ := hx
    rw [← he, (processItemRun_no_key ta e).2]
    rfl
  · intro r hr
    simp only [batchRun, List.mem_map] at hr
    obtain ⟨e, -, he⟩ := hr
    rw [← he]
    exact (processItemRun_no_key ta e).1

/-- C6 (witness): the amended claim at a concrete one-item batch with
the credential missing. -/
theorem C6_per_item_credential_witness :
    (batchRun false false
      [⟨cl "c.txt", cl "c", true, cl "textC", some (cl "rc"), true, true, true⟩]).length
      = 1 ∧
    apiCallsRun false false
      [⟨cl "c.txt", cl "c", true, cl "textC", some (cl "rc"), true, true, true⟩]
      = 0 ∧
    (∀ r ∈ batchRun false false
      [⟨cl "c.txt", cl "c", true, cl "textC", some (cl "rc"), true, true, true⟩],
      r.success = false) :=
  ⟨(C6_per_item_credential_amended false
      [⟨cl "c.txt", cl "c", true, cl "textC", some (cl "rc"), true, true, true⟩]).1 false,
   (C6_per_item_credential_amended false
      [⟨cl "c.txt", cl "c", true, cl "textC", some (cl "rc"), true, true, true⟩]).2.1,
   (C6_per_item_credential_amended false
      [⟨cl "c.txt", cl "c", true, cl "textC", some (cl "rc"), true, true, true⟩]).2.2⟩

/-- Every artifact path recorded by the sequential batch loop is derived
from the item's own filename stem. -/
theorem processItemRun_paths (key ta : Bool) (e : ItemEnvRun) :
    (((processItemRun key ta e).result).mmdPath = none ∨
      ((processItemRun key ta e).result).mmdPath = some (e.stem ++ cl ".mmd")) ∧
    (((processItemRun key ta e).result).pngPath = none ∨
      ((processItemRun key ta e).result).pngPath = some (e.stem ++ cl ".png")) ∧
    (((processItemRun key ta e).result).summaryPath = none ∨
      ((processItemRun key ta e).result).summaryPath
        = some (e.stem ++ cl ".summary.txt")) := by
  unfold processItemRun
  dsimp only
  split
  · exact ⟨Or.inl rfl, Or.inl rfl, Or.inl rfl⟩
  · split
    · exact ⟨Or.inl rfl, Or.inl rfl, Or.inl rfl⟩
    · cases (run_get_mermaid_code_from_text key e.apiReply ta).mermaid_code with
      | none => exact ⟨Or.inl rfl, Or.inl rfl, Or.inl rfl⟩
      | some x =>
        dsimp only
        refine ⟨?_, ?_, ?_⟩
        · split
          · exact Or.inr rfl
          · exact Or.inl rfl
        · split
          · exact Or.inr rfl
          · exact Or.inl rfl
        · split
          · exact Or.inr rfl
          · exact Or.inl rfl

/-- C7: given the pipeline invariant that successful items carry a
recorded mermaid file, the archive is absent (no buffer, not an empty
one) exactly when no item succeeded: with zero successes the packaging
step yields `none` while the report still holds every (failed) item, and
with at least one success it yields a single archive holding exactly the
success artifacts, whose entry names are keyed by the items' filename
stems. -/
theorem C7_archive_presence (rs : List ItemResultRun)
    (hinv : ∀ r ∈ rs, r.success = true → r.mmdPath.isSome = true) :
    ((∀ r ∈ rs, r.success = false) → makeZipRun rs = none) ∧
    ((∃ r ∈ rs, r.success = true) →
      makeZipRun rs = some ((rs.filter (fun r => r.success)).flatMap entriesOf) ∧
      (rs.filter (fun r => r.success)).flatMap entriesOf ≠ []) ∧
    (∀ (key ta : Bool) (e : ItemEnvRun),
      entriesOf ((processItemRun key ta e).result)
        ⊆ [e.stem ++ cl ".mmd", e.stem ++ cl ".png",
           e.stem ++ cl ".summary.txt"]) := by
  refine ⟨?_, ?_, ?_⟩
  · intro hall
    have hfil : rs.filter (fun r => r.success) = [] :=
      List.filter_eq_nil_iff.mpr (fun a ha => by simp [hall a ha])
    unfold makeZipRun
    simp [hfil]
  · rintro ⟨r, hr, hs⟩
    have hmem : r ∈ rs.filter (fun r => r.success) := List.mem_filter.mpr ⟨hr, hs⟩
    have hne : rs.filter (fun r => r.success) ≠ [] := by
      intro hh
      rw [hh] at hmem
      exact absurd hmem (List.not_mem_nil r)
    have hlen : 1 ≤ (entriesOf r).length := by
      have hi := hinv r hr hs
      unfold entriesOf
      cases hmp : r.mmdPath with
      | none => rw [hmp] at hi; cases hi
      | some v => simp
    have hsum : 1 ≤ filesToZip (rs.filter (fun r => r.success)) := by
      unfold filesToZip
      calc 1 ≤ (entriesOf r).length := hlen
        _ ≤ _ := List.single_le_sum (fun x _ => Nat.zero_le x) _
              (List.mem_map_of_mem (fun r => (entriesOf r).length) hmem)
    have h1 : (rs.filter (fun r => r.success)).isEmpty = false :=
      List.isEmpty_eq_false.mpr hne
    have h2 : (filesToZip (rs.filter (fun r => r.success)) == 0) = false :=
      beq_eq_false_iff_ne.mpr (by omega)
    constructor
    · unfold makeZipRun
      simp [h1, h2]
    · have hfl : 1 ≤ ((rs.filter (fun r => r.success)).flatMap entriesOf).length := by
        rw [List.length_flatMap]
        unfold filesToZip at hsum
        exact hsum
      intro hh
      rw [hh] at hfl
      simp at hfl
  · intro key ta e a ha
    have hp := processItemRun_paths key ta e
    unfold entriesOf at ha
    simp only [List.mem_append, Option.mem_toList, Option.mem_def] at ha
    rcases ha with (ha | ha) | ha
    · rcases hp.1 with h | h
      · rw [h] at ha; cases ha
      · rw [h] at ha
        injection ha with ha
        subst ha
        simp
    · rcases hp.2.1 with h | h
      · rw [h] at ha; cases ha
      · rw [h] at ha
        injection ha with ha
        subst ha
        simp
    · rcases hp.2.2 with h | h
      · rw [h] at ha; cases ha
      · rw [h] at ha
        injection ha with ha
        subst ha
        simp

/-- C7 (witness): a concrete batch with one success and one failure
yields the two-entry archive; a concrete batch with zero successes
yields no archive. -/
theorem C7_archive_presence_witness :
    makeZipRun [⟨cl "a.txt", true, some (cl "a.mmd"), some (cl "a.png"), none⟩,
                failRes (cl "b.txt")]
      = some [cl "a.mmd", cl "a.png"] ∧
    makeZipRun [failRes (cl "c.txt")] = none := by
  constructor
  · have h := (C7_archive_presence
      [⟨cl "a.txt", true, some (cl "a.mmd"), some (cl "a.png"), none⟩,
       failRes (cl "b.txt")] (by decide)).2.1
      ⟨⟨cl "a.txt", true, some (cl "a.mmd"), some (cl "a.png"), none⟩,
       by decide, by decide⟩
    exact h.1.trans (by decide)
  · exact (C7_archive_presence [failRes (cl "c.txt")] (by decide)).1 (by decide)

/-- A completion sequence never changes the slot count. -/
theorem scatter_length (v : Nat → Option ItemResult2) :
    ∀ (order : List Nat) (slots : List (Option ItemResult2)),
      (scatter v order slots).length = slots.length := by
  intro order
  induction order with
  | nil => intro slots; rfl
  | cons i rest ih =>
    intro slots
    simp only [scatter]
    rw [ih, List.length_set]

/-- Tasks that never complete leave their slot untouched. -/
theorem scatter_not_mem (v : Nat → Option ItemResult2) :
    ∀ (order : List Nat) (slots : List (Option ItemResult2)) (j : Nat),
      j ∉ order → (scatter v order slots)[j]? = slots[j]? := by
  intro order
  induction order with
  | nil => intro slots j _; rfl
  | cons i rest ih =>
    intro slots j hj
    have hji : j ≠ i := fun h => hj (h ▸ List.mem_cons_self i rest)
    have hjr : j ∉ rest := fun h => hj (List.mem_cons_of_mem i h)
    simp only [scatter]
    rw [ih (slots.set i (v i)) j hjr]
    exact List.getElem?_set_ne (Ne.symm hji)

/-- A task that completes at some point ends with its own result in its
own slot, regardless of the completion order. -/
theorem scatter_mem (v : Nat → Option ItemResult2) :
    ∀ (order : List Nat) (slots : List (Option ItemResult2)) (j : Nat),
      j ∈ order → j < slots.length →
      (scatter v order slots)[j]? = some (v j) := by
  intro order
  induction order with
  | nil => intro slots j hj _; cases hj
  | cons i rest ih =>
    intro slots j hj hlt
    by_cases hjr : j ∈ rest
    · simp only [scatter]
      exact ih _ j hjr (by rw [List.length_set]; exact hlt)
    · have hji : j = i := by
        rcases List.mem_cons.mp hj with h | h
        · exact h
        · exact absurd h hjr
      subst hji
      simp only [scatter]
      rw [scatter_not_mem v rest _ j hjr]
      exact List.getElem?_set_self hlt

/-- `processItemRun` always records the item's own filename. -/
theorem processItemRun_filename (key ta : Bool) (e : ItemEnvRun) :
    ((processItemRun key ta e).result).filename = e.name := by
  unfold processItemRun
  dsimp only
  split
  · rfl
  · split
    · rfl
    · cases (run_get_mermaid_code_from_text key e.apiReply ta).mermaid_code with
      | none => rfl
      | some x => rfl

/-- When every task index completes at least once, the gathered result
list equals the per-item results in input order. -/
theorem gather2_eq (ta : Bool) (items : List ItemEnv2) (order : List Nat)
    (hcov : ∀ j, j < items.length → j ∈ order) :
    gather2 ta items order = items.map (fun e => some (process_file ta e)) := by
  apply List.ext_getElem?
  intro n
  by_cases hn : n < items.length
  · unfold gather2
    rw [scatter_mem _ order _ n (hcov n hn)
      (by rw [List.length_replicate]; exact hn)]
    rw [List.getElem?_map]
    rw [List.getElem?_eq_getElem hn]
    rfl
  · have h1 : items.length ≤ n := by omega
    rw [List.getElem?_eq_none (by unfold gather2; rw [scatter_length, List.length_replicate]; exact h1)]
    rw [List.getElem?_eq_none (by rw [List.length_map]; exact h1)]

/-- C8: the final report preserves input order in both variants — under
the concurrent fan-out model every completion order that covers all task
indices yields the per-item results in the input sequence order, and the
sequential loop emits one result per input item in input order (its
filename sequence equals the input name sequence). -/
theorem C8_batch_order (ta : Bool) (items : List ItemEnv2) (order : List Nat)
    (hcov : ∀ j, j < items.length → j ∈ order) :
    gather2 ta items order = items.map (fun e => some (process_file ta e)) ∧
    (∀ (key ta2 : Bool) (envs : List ItemEnvRun),
      (batchRun key ta2 envs).map (fun r => r.filename)
        = envs.map (fun e => e.name)) := by
  constructor
  · exact gather2_eq ta items order hcov
  · intro key ta2 envs
    unfold batchRun
    rw [List.map_map]
    congr 1
    funext e
    exact processItemRun_filename key ta2 e

/-- C8 (witness): two concrete items completing in reversed order are
still reported in input order, and a concrete sequential batch reports
the input filename sequence. -/
theorem C8_batch_order_witness :
    gather2 false
      [⟨cl "a.txt", cl "a", true, cl "ta", true,
        some (cl "```mermaid\ngraph TD\nA-->B\n```"), true⟩,
       ⟨cl "b.txt", cl "b", true, cl "tb", true, some (cl "nb"), true⟩]
      [1, 0]
      = [⟨cl "a.txt", cl "a", true, cl "ta", true,
          some (cl "```mermaid\ngraph TD\nA-->B\n```"), true⟩,
         ⟨cl "b.txt", cl "b", true, cl "tb", true, some (cl "nb"), true⟩].map
          (fun e => some (process_file false e)) ∧
    (batchRun true true
      [⟨cl "d.txt", cl "d", true, cl "td", some (cl "rd"), true, true, true⟩]).map
        (fun r => r.filename)
      = [⟨cl "d.txt", cl "d", true, cl "td", some (cl "rd"), true, true, true⟩].map
          (fun (e : ItemEnvRun) => e.name) :=
  ⟨(C8_batch_order false
      [⟨cl "a.txt", cl "a", true, cl "ta", true,
        some (cl "```mermaid\ngraph TD\nA-->B\n```"), true⟩,
       ⟨cl "b.txt", cl "b", true, cl "tb", true, some (cl "nb"), true⟩]
      [1, 0]
      (by intro j hj; have hj2 : j < 2 := by simpa using hj
          interval_cases j <;> decide)).1,
   (C8_batch_order false [] [] (by intro j hj; simp at hj)).2 true true
     [⟨cl "d.txt", cl "d", true, cl "td", some (cl "rd"), true, true, true⟩]⟩

/-- C4 (witness): a concrete successful streamlit_run.py item (summary
requested, reply carrying both block and separator) satisfies every
conjunct of the invariant. -/
theorem C4_success_invariant_witness :
    ((run_get_mermaid_code_from_text true
        (some (cl "```mermaid\ngraph TD\nA-->B\n```\n---摘要---\nzhaiyao")) true).mermaid_code).isSome
      = true ∧
    true = true ∧ true = true ∧
    (true = true →
      abstractTruthy ((run_get_mermaid_code_from_text true
        (some (cl "```mermaid\ngraph TD\nA-->B\n```\n---摘要---\nzhaiyao")) true).abstract)
        = true ∧
      true = true) :=
  C4_success_invariant_amended true true
    ⟨cl "b.txt", cl "b", true, cl "text",
     some (cl "```mermaid\ngraph TD\nA-->B\n```\n---摘要---\nzhaiyao"),
     true, true, true⟩
    (by decide)
